import Mathlib

/-!
Shallow embedding of the grade-computation core of `app.py`
(Calci.py — GPA companion).  Numeric scores are modelled as rationals;
`np.nan` and other missing numeric values are modelled as `none : Option ℚ`;
the JSON history file content is modelled as `Option (List HistoryEntry)`,
with `none` standing for malformed stored data.
-/

namespace Calci

/-- Grade mapping percentage to label and 10-point grade point, exactly the
`PERCENT_TO_GRADE` table of `app.py` (lines 67-76): entries are
`(mn, mx, label, gradePoint)`. -/
def PERCENT_TO_GRADE : List (ℚ × ℚ × String × ℚ) :=
  [ (90, 100, "O", 10),
    (80, 89.99, "A+", 9),
    (70, 79.99, "A", 8),
    (60, 69.99, "B+", 7),
    (50, 59.99, "B", 6),
    (45, 49.99, "C", 5),
    (40, 44.99, "D", 4),
    (0, 39.99, "F", 0) ]

/-- The `for mn, mx, lbl, gp in PERCENT_TO_GRADE: if mn <= p <= mx: return (lbl, float(gp))`
loop of `percent_to_grade_point`: the first band whose closed interval contains
`p` wins; falling off the loop yields the empty label and NaN (`none`). -/
def gradeLoop (p : ℚ) : List (ℚ × ℚ × String × ℚ) → String × Option ℚ
  | [] => ("", none)
  | (mn, mx, lbl, gp) :: rest =>
      if mn ≤ p ∧ p ≤ mx then (lbl, some gp) else gradeLoop p rest

/-- `percent_to_grade_point` of `app.py` (lines 99-107).  A non-numeric
input (the `float(percent)` failure branch) is modelled as `none` and
returns `("", nan)`, i.e. `("", none)`. -/
def percent_to_grade_point (percent : Option ℚ) : String × Option ℚ :=
  match percent with
  | none => ("", none)
  | some p => gradeLoop p PERCENT_TO_GRADE

/-- Helper: the loop returns the no-grade result when no band matches. -/
theorem gradeLoop_eq_none (p : ℚ) (L : List (ℚ × ℚ × String × ℚ))
    (h : ∀ b ∈ L, ¬ (b.1 ≤ p ∧ p ≤ b.2.1)) : gradeLoop p L = ("", none) := by
  induction L with
  | nil => rfl
  | cons b rest ih =>
      obtain ⟨mn, mx, lbl, gp⟩ := b
      rw [gradeLoop, if_neg (h _ (List.mem_cons_self _ _))]
      exact ih fun b hb => h b (List.mem_cons_of_mem _ hb)

/-- Claim C1 (evidence of the divergence): the band table of the source uses
closed intervals with upper endpoints such as `89.99`, so the bands do not
cover all of `[0,100]`: `90` maps to `O/10` and `89.99` to `A+/9` as the
claim states, but `89.999` lies in `[0,100]` and in the gap `(89.99, 90)`,
where the lookup returns the empty label and no grade point instead of the
claimed `A+/9`. -/
theorem grade_bands_have_gap :
    percent_to_grade_point (some 90) = ("O", some 10) ∧
    percent_to_grade_point (some 89.99) = ("A+", some 9) ∧
    (0 ≤ (89.999 : ℚ) ∧ (89.999 : ℚ) ≤ 100) ∧
    percent_to_grade_point (some 89.999) = ("", none) := by
  refine ⟨?_, ?_, by norm_num, ?_⟩ <;>
    norm_num [percent_to_grade_point, gradeLoop, PERCENT_TO_GRADE]

/-- Claim C2: any non-numeric input (modelled `none`) and any numeric input
outside `[0,100]` yields the failure result: empty label together with an
absent (`none`) grade point, which is distinct from the valid failing grade
point `some 0`. -/
theorem percent_to_grade_point_invalid (q : ℚ) (h : q < 0 ∨ 100 < q) :
    percent_to_grade_point (some q) = ("", none) ∧
    percent_to_grade_point none = ("", none) ∧
    (percent_to_grade_point (some q)).2 ≠ some 0 := by
  have hmain : percent_to_grade_point (some q) = ("", none) := by
    show gradeLoop q PERCENT_TO_GRADE = ("", none)
    apply gradeLoop_eq_none
    intro b hb
    simp only [PERCENT_TO_GRADE, List.mem_cons, List.not_mem_nil, or_false] at hb
    rcases hb with rfl | rfl | rfl | rfl | rfl | rfl | rfl | rfl <;>
      · rintro ⟨h1, h2⟩
        rcases h with h | h <;> simp only at h1 h2 <;> norm_num at h1 h2 <;> linarith
  exact ⟨hmain, rfl, by rw [hmain]; simp⟩

/-- Witness for C2 at the concrete out-of-range input `101`. -/
theorem percent_to_grade_point_invalid_witness :
    percent_to_grade_point (some 101) = ("", none) ∧
    percent_to_grade_point none = ("", none) ∧
    (percent_to_grade_point (some 101)).2 ≠ some 0 :=
  percent_to_grade_point_invalid 101 (Or.inr (by norm_num))

/-- Nearest integer with ties to the even integer, as Python's built-in
`round` resolves ties. -/
def roundHalfEven (x : ℚ) : ℤ :=
  let n := ⌊x⌋
  if x - n < 1 / 2 then n
  else if 1 / 2 < x - n then n + 1
  else if n % 2 = 0 then n else n + 1

/-- Python's `round(x, ndigits)` on the idealized (exact rational) value. -/
def pyRound (ndigits : ℕ) (x : ℚ) : ℚ :=
  (roundHalfEven (x * 10 ^ ndigits) : ℚ) / 10 ^ ndigits

/-- One row of the per-semester dataframe as `sgpa_from_df` reads it:
`credits` is the raw Credits cell after `pd.to_numeric(..., errors="coerce")`
(`none` = NaN, which `fillna(0)` turns into `0`), and `gradePoint` is the
Grade_Point cell after the same coercion (`none` = NaN = no grade). -/
structure SubjectRow where
  credits : Option ℚ
  gradePoint : Option ℚ

/-- `sgpa_from_df` of `app.py` (lines 109-118): keep the rows whose
Grade_Point is not NaN, sum their credits; if the total is `0` return
`None`, otherwise the credit-weighted grade-point average rounded to
`GPA_DECIMALS = 3` places. -/
def sgpa_from_df (rows : List SubjectRow) : Option ℚ :=
  let used := rows.filter fun r => r.gradePoint.isSome
  let total_credits := (used.map fun r => r.credits.getD 0).sum
  if total_credits = 0 then none
  else
    some (pyRound 3
      ((used.map fun r => r.gradePoint.getD 0 * r.credits.getD 0).sum / total_credits))

/-- Spec-side reading of C3: the total credits over the subjects with a
non-missing grade point. -/
def usedCreditsSpec (rows : List SubjectRow) : ℚ :=
  ((rows.filter fun r => r.gradePoint.isSome).map fun r => r.credits.getD 0).sum

/-- Spec-side reading of C3: `Σ(points_i × credits_i)` over the subjects
with a non-missing grade point. -/
def weightedPointsSpec (rows : List SubjectRow) : ℚ :=
  ((rows.filter fun r => r.gradePoint.isSome).map
    fun r => r.gradePoint.getD 0 * r.credits.getD 0).sum

/-- Claim C3: `sgpa_from_df` returns `Σ(points_i × credits_i) / Σ(credits_i)`
over the subjects with a non-missing grade point, rounded to 3 decimal
places, and whenever those subjects' total credits is `0` it returns the
absent value `none`, never `some x` (in particular never the number `0`). -/
theorem sgpa_from_df_spec (rows : List SubjectRow) :
    sgpa_from_df rows =
      (if usedCreditsSpec rows = 0 then none
       else some (pyRound 3 (weightedPointsSpec rows / usedCreditsSpec rows))) ∧
    (usedCreditsSpec rows = 0 → ∀ x : ℚ, sgpa_from_df rows ≠ some x) := by
  constructor
  · rfl
  · intro h0 x
    show (if usedCreditsSpec rows = 0 then none
          else some (pyRound 3 (weightedPointsSpec rows / usedCreditsSpec rows))) ≠ some x
    rw [if_pos h0]
    exact fun hc => Option.noConfusion hc

/-- Witness for C3: the empty semester has used credits `0` and its SGPA is
not the number `0` (nor any other number). -/
theorem sgpa_from_df_spec_witness :
    usedCreditsSpec [] = 0 ∧ sgpa_from_df [] ≠ some 0 :=
  ⟨rfl, (sgpa_from_df_spec []).2 rfl 0⟩

/-- The Track-CGPA compute block of `app.py` (lines 417-424) as a function of
the `(sgpa, credits)` pairs: `df_valid = df_sem[df_sem["sgpa"] > 0]`, error
when `df_valid["credits"].sum() == 0`, otherwise the credit-weighted average
of the valid pairs rounded to `GPA_DECIMALS = 3` places.  `none` models the
`st.error("No credits entered...")` failure branch. -/
def compute_cgpa (pairs : List (ℚ × ℚ)) : Option ℚ :=
  let df_valid := pairs.filter fun p => decide (0 < p.1)
  let total_credits := (df_valid.map Prod.snd).sum
  if total_credits = 0 then none
  else some (pyRound 3 ((df_valid.map fun p => p.1 * p.2).sum / total_credits))

/-- Spec-side reading of C4: total credits of the pairs that survive the
`sgpa > 0` filter. -/
def validCreditsSpec (pairs : List (ℚ × ℚ)) : ℚ :=
  ((pairs.filter fun p => decide (0 < p.1)).map Prod.snd).sum

/-- Spec-side reading of C4: `Σ(sgpa_i × credits_i)` over the pairs that
survive the `sgpa > 0` filter. -/
def validWeightedSpec (pairs : List (ℚ × ℚ)) : ℚ :=
  ((pairs.filter fun p => decide (0 < p.1)).map fun p => p.1 * p.2).sum

/-- Claim C4: the CGPA computation filters out every pair with `sgpa ≤ 0`
before weighting (dropping them first changes nothing), fails exactly when
the filtered pairs' total credits is zero, otherwise returns the
credit-weighted average rounded to 3 decimals, and on
`[(8.0,20),(0,0),(9.0,24)]` it excludes the zero pair and returns `8.545`. -/
theorem compute_cgpa_spec (pairs : List (ℚ × ℚ)) :
    compute_cgpa (pairs.filter fun p => decide (0 < p.1)) = compute_cgpa pairs ∧
    (compute_cgpa pairs = none ↔ validCreditsSpec pairs = 0) ∧
    (validCreditsSpec pairs ≠ 0 →
      compute_cgpa pairs =
        some (pyRound 3 (validWeightedSpec pairs / validCreditsSpec pairs))) ∧
    compute_cgpa [(8, 20), (0, 0), (9, 24)] = some 8.545 := by
  refine ⟨?_, ?_, ?_, ?_⟩
  · unfold compute_cgpa
    rw [List.filter_filter]
    simp only [Bool.and_self]
  · show (if validCreditsSpec pairs = 0 then none
          else some (pyRound 3 (validWeightedSpec pairs / validCreditsSpec pairs)))
          = none ↔ validCreditsSpec pairs = 0
    by_cases h : validCreditsSpec pairs = 0
    · rw [if_pos h]; simp [h]
    · rw [if_neg h]; simp [h]
  · intro h
    show (if validCreditsSpec pairs = 0 then none
          else some (pyRound 3 (validWeightedSpec pairs / validCreditsSpec pairs)))
          = some (pyRound 3 (validWeightedSpec pairs / validCreditsSpec pairs))
    rw [if_neg h]
  · show (if validCreditsSpec [(8, 20), (0, 0), (9, 24)] = 0 then none
          else some (pyRound 3 (validWeightedSpec [(8, 20), (0, 0), (9, 24)] /
            validCreditsSpec [(8, 20), (0, 0), (9, 24)]))) = some 8.545
    norm_num [validCreditsSpec, validWeightedSpec, pyRound, roundHalfEven,
      List.filter, List.sum_cons]

/-- Witness for C4 at the concrete pairs `[(8,20),(0,0),(9,24)]`, whose
filtered total credits `44` is nonzero. -/
theorem compute_cgpa_spec_witness :
    validCreditsSpec [(8, 20), (0, 0), (9, 24)] ≠ 0 ∧
    compute_cgpa [(8, 20), (0, 0), (9, 24)] =
      some (pyRound 3 (validWeightedSpec [(8, 20), (0, 0), (9, 24)] /
        validCreditsSpec [(8, 20), (0, 0), (9, 24)])) :=
  ⟨by norm_num [validCreditsSpec, List.filter],
   (compute_cgpa_spec [(8, 20), (0, 0), (9, 24)]).2.2.1
     (by norm_num [validCreditsSpec, List.filter])⟩

/-- Top 10 countries for higher studies, the `TOP_COUNTRIES` list of
`app.py` (lines 79-82). -/
def TOP_COUNTRIES : List String :=
  [ "United States", "Canada", "United Kingdom", "Germany", "Australia",
    "Netherlands", "Sweden", "France", "Singapore", "New Zealand" ]

/-- The country-specific conversion payload shapes produced by
`convert_cgpa_to_countries`: a GPA on a stated scale, a classification
string, a bare grade, a score on a stated scale, or a raw percentage. -/
inductive Payload where
  | scaleGpa (scale : String) (gpa : ℚ)
  | classif (label : String)
  | grade (g : ℚ)
  | scaleScore (scale : String) (score : ℚ)
  | percentOf (p : ℚ)
  deriving DecidableEq

/-- `convert_cgpa_to_countries` of `app.py` (lines 120-164), with the result
dict modelled as an association list in insertion order.  `none` models the
`cgpa10 is None` input, which returns the empty dict; every other branch of
the source is translated verbatim (`pct = cg * 10`, per-country step
functions, `round(..., 2)` as `pyRound 2`). -/
def convert_cgpa_to_countries (cgpa10 : Option ℚ) : List (String × Payload) :=
  match cgpa10 with
  | none => []
  | some cg =>
    let pct := cg * 10
    let can : ℚ :=
      if pct ≥ 90 then 4 else if pct ≥ 85 then 3.7 else if pct ≥ 80 then 3.3
      else if pct ≥ 75 then 3 else if pct ≥ 70 then 2.7 else 2
    let uk : String :=
      if pct ≥ 70 then "First" else if pct ≥ 60 then "2:1"
      else if pct ≥ 50 then "2:2" else if pct ≥ 40 then "Third" else "Fail"
    let ger : ℚ := pyRound 2 (1 + 3 * (100 - pct) / 100)
    let aus : ℚ :=
      if pct ≥ 85 then 7 else if pct ≥ 75 then 6 else if pct ≥ 65 then 5
      else if pct ≥ 50 then 4 else 2
    let sw : ℚ :=
      if pct ≥ 90 then 5 else if pct ≥ 75 then 4 else if pct ≥ 60 then 3
      else if pct ≥ 50 then 2 else 1
    [ ("United States", Payload.scaleGpa "4.0" (pyRound 2 (cg / 10 * 4))),
      ("Canada", Payload.scaleGpa "4.0" can),
      ("United Kingdom", Payload.classif uk),
      ("Germany", Payload.grade ger),
      ("Australia", Payload.scaleGpa "7" aus),
      ("Netherlands", Payload.scaleScore "10" (pyRound 2 (pct / 10))),
      ("Sweden", Payload.grade sw),
      ("France", Payload.percentOf pct),
      ("Singapore", Payload.scaleGpa "4.0" (pyRound 2 (cg / 10 * 4))),
      ("New Zealand", Payload.scaleGpa "7" aus) ]

/-- Counterexample to C5: `15` is outside `[0,10]`, yet the conversion does
not fail — it returns the full ten-country mapping, with the raw unclamped
percentage `150` passed through for France. -/
theorem convert_out_of_range_succeeds :
    (10 : ℚ) < 15 ∧
    convert_cgpa_to_countries (some 15) ≠ [] ∧
    (convert_cgpa_to_countries (some 15)).lookup "France" =
      some (Payload.percentOf 150) := by
  refine ⟨by norm_num, by simp [convert_cgpa_to_countries], ?_⟩
  norm_num [convert_cgpa_to_countries, List.lookup]
  rfl

/-- Claim C5 as amended: the conversion fails (returns the empty mapping)
only for a missing (`None`) input; every numeric input, in range or not, is
accepted without clamping — the France payload carries the raw `cg * 10`
percentage for any rational `cg`. -/
theorem convert_no_range_validation :
    convert_cgpa_to_countries none = [] ∧
    ∀ cg : ℚ,
      convert_cgpa_to_countries (some cg) ≠ [] ∧
      (convert_cgpa_to_countries (some cg)).lookup "France" =
        some (Payload.percentOf (cg * 10)) := by
  refine ⟨rfl, fun cg => ⟨by simp [convert_cgpa_to_countries], ?_⟩⟩
  simp [convert_cgpa_to_countries, List.lookup]

/-- Claim C6: for every valid `cgpa` in `[0,10]` the conversion result has
exactly one payload per supported country: its keys, in order, are exactly
`TOP_COUNTRIES`, and each of the ten countries occurs exactly once. -/
theorem convert_has_all_countries (cg : ℚ) (h0 : 0 ≤ cg) (h10 : cg ≤ 10) :
    (convert_cgpa_to_countries (some cg)).map Prod.fst = TOP_COUNTRIES ∧
    ∀ c ∈ TOP_COUNTRIES,
      ((convert_cgpa_to_countries (some cg)).map Prod.fst).count c = 1 := by
  have hkeys : (convert_cgpa_to_countries (some cg)).map Prod.fst = TOP_COUNTRIES := rfl
  refine ⟨hkeys, fun c hc => ?_⟩
  rw [hkeys]
  fin_cases hc <;> rfl

/-- Witness for C6 at the concrete valid input `8`. -/
theorem convert_has_all_countries_witness :
    (convert_cgpa_to_countries (some 8)).map Prod.fst = TOP_COUNTRIES ∧
    ∀ c ∈ TOP_COUNTRIES,
      ((convert_cgpa_to_countries (some 8)).map Prod.fst).count c = 1 :=
  convert_has_all_countries 8 (by norm_num) (by norm_num)

/-- Extract the `gpa` field of a payload, when it has one. -/
def Payload.gpaValue : Payload → Option ℚ
  | .scaleGpa _ g => some g
  | _ => none

/-- Claim C10: for every accepted numeric input, the New Zealand payload
carries the same 7-point gpa value as the Australia payload, and the
Singapore payload the same 4.0-scale gpa value as the United States
payload. -/
theorem convert_shared_gpa_values (cg : ℚ) :
    ((convert_cgpa_to_countries (some cg)).lookup "New Zealand").bind Payload.gpaValue =
      ((convert_cgpa_to_countries (some cg)).lookup "Australia").bind Payload.gpaValue ∧
    ((convert_cgpa_to_countries (some cg)).lookup "Singapore").bind Payload.gpaValue =
      ((convert_cgpa_to_countries (some cg)).lookup "United States").bind Payload.gpaValue := by
  constructor <;> simp [convert_cgpa_to_countries, List.lookup, Payload.gpaValue]

/-- The `for mn, mx, lbl, gp in PERCENT_TO_GRADE: if abs(gp - target_gp) < 1e-6`
scan of the Target & Planner feature (`app.py` lines 483-488): the first
band whose grade point matches the target within `1e-6` gives the lower
percent threshold; `none` models the `lower is None` "Target not valid"
branch. -/
def lowerLoop (target_gp : ℚ) : List (ℚ × ℚ × String × ℚ) → Option ℚ
  | [] => none
  | (mn, _, _, gp) :: rest =>
      if |gp - target_gp| < 1 / 1000000 then some mn else lowerLoop target_gp rest

/-- The inverse lookup `lowerBoundFor`: minimum percent attaining the given
grade point, from the fixed band table. -/
def planner_lower_bound (target_gp : ℚ) : Option ℚ :=
  lowerLoop target_gp PERCENT_TO_GRADE

/-- The planner's required-SEE computation (`app.py` lines 491-493):
`needed = lower - cie` clamped by `max(0.0, min(50.0, needed))`; absent when
the target grade point matches no band. -/
def planner_needed (cie target_gp : ℚ) : Option ℚ :=
  (planner_lower_bound target_gp).map fun lower => max 0 (min 50 (lower - cie))

/-- Claim C7: for every current partial score in `[0,50]` and every target
grade point that occurs in the band table, the planner returns
`clamp(lowerBound(target) - cie, 0, 50)` where `lowerBound(target)` is the
matched band's lower percent threshold; in particular
`requiredRemaining(20, 8.0) = 50` and `requiredRemaining(45, 5.0) = 0`. -/
theorem planner_needed_spec (cie t : ℚ) (hc0 : 0 ≤ cie) (hc50 : cie ≤ 50)
    (ht : ∃ b ∈ PERCENT_TO_GRADE, b.2.2.2 = t) :
    (∃ lower, planner_lower_bound t = some lower ∧
      (∃ b ∈ PERCENT_TO_GRADE, b.2.2.2 = t ∧ b.1 = lower) ∧
      planner_needed cie t = some (max 0 (min 50 (lower - cie)))) ∧
    planner_needed 20 8 = some 50 ∧
    planner_needed 45 5 = some 0 := by
  refine ⟨?_, ?_, ?_⟩
  · obtain ⟨b, hb, hbt⟩ := ht
    simp only [PERCENT_TO_GRADE, List.mem_cons, List.not_mem_nil, or_false] at hb
    rcases hb with rfl | rfl | rfl | rfl | rfl | rfl | rfl | rfl <;> subst hbt
    · exact ⟨90, by norm_num [planner_lower_bound, lowerLoop, PERCENT_TO_GRADE, abs],
        ⟨_, by simp [PERCENT_TO_GRADE], rfl, rfl⟩,
        by norm_num [planner_needed, planner_lower_bound, lowerLoop, PERCENT_TO_GRADE, abs]⟩
    · exact ⟨80, by norm_num [planner_lower_bound, lowerLoop, PERCENT_TO_GRADE, abs],
        ⟨_, by simp [PERCENT_TO_GRADE], rfl, rfl⟩,
        by norm_num [planner_needed, planner_lower_bound, lowerLoop, PERCENT_TO_GRADE, abs]⟩
    · exact ⟨70, by norm_num [planner_lower_bound, lowerLoop, PERCENT_TO_GRADE, abs],
        ⟨_, by simp [PERCENT_TO_GRADE], rfl, rfl⟩,
        by norm_num [planner_needed, planner_lower_bound, lowerLoop, PERCENT_TO_GRADE, abs]⟩
    · exact ⟨60, by norm_num [planner_lower_bound, lowerLoop, PERCENT_TO_GRADE, abs],
        ⟨_, by simp [PERCENT_TO_GRADE], rfl, rfl⟩,
        by norm_num [planner_needed, planner_lower_bound, lowerLoop, PERCENT_TO_GRADE, abs]⟩
    · exact ⟨50, by norm_num [planner_lower_bound, lowerLoop, PERCENT_TO_GRADE, abs],
        ⟨_, by simp [PERCENT_TO_GRADE], rfl, rfl⟩,
        by norm_num [planner_needed, planner_lower_bound, lowerLoop, PERCENT_TO_GRADE, abs]⟩
    · exact ⟨45, by norm_num [planner_lower_bound, lowerLoop, PERCENT_TO_GRADE, abs],
        ⟨_, by simp [PERCENT_TO_GRADE], rfl, rfl⟩,
        by norm_num [planner_needed, planner_lower_bound, lowerLoop, PERCENT_TO_GRADE, abs]⟩
    · exact ⟨40, by norm_num [planner_lower_bound, lowerLoop, PERCENT_TO_GRADE, abs],
        ⟨_, by simp [PERCENT_TO_GRADE], rfl, rfl⟩,
        by norm_num [planner_needed, planner_lower_bound, lowerLoop, PERCENT_TO_GRADE, abs]⟩
    · exact ⟨0, by norm_num [planner_lower_bound, lowerLoop, PERCENT_TO_GRADE, abs],
        ⟨_, by simp [PERCENT_TO_GRADE], rfl, rfl⟩,
        by norm_num [planner_needed, planner_lower_bound, lowerLoop, PERCENT_TO_GRADE, abs]⟩
  · norm_num [planner_needed, planner_lower_bound, lowerLoop, PERCENT_TO_GRADE, abs]
  · norm_num [planner_needed, planner_lower_bound, lowerLoop, PERCENT_TO_GRADE, abs]

/-- Witness for C7 at the concrete input `cie = 20`, target grade point `8`
(the band `[70, 79.99] → A/8`). -/
theorem planner_needed_spec_witness :
    (∃ lower, planner_lower_bound 8 = some lower ∧
      (∃ b ∈ PERCENT_TO_GRADE, b.2.2.2 = 8 ∧ b.1 = lower) ∧
      planner_needed 20 8 = some (max 0 (min 50 (lower - 20)))) ∧
    planner_needed 20 8 = some 50 ∧
    planner_needed 45 5 = some 0 :=
  planner_needed_spec 20 8 (by norm_num) (by norm_num)
    ⟨(70, 79.99, "A", 8), by simp [PERCENT_TO_GRADE], rfl⟩

/-- One entry of `history.json`: the fields common to the three entry
shapes the source appends (semester computation, planner run, app rating),
with the action-specific fields gathered into `payload`. -/
structure HistoryEntry where
  timestamp : String
  student : String
  hallticket : String
  program : String
  action : String
  rating : Option ℤ
  payload : String
  deriving DecidableEq

/-- `load_history` of `app.py` (lines 90-94): parse the stored JSON; the
`except Exception: return []` branch is modelled by the `none` (malformed
stored data) case. -/
def load_history (stored : Option (List HistoryEntry)) : List HistoryEntry :=
  match stored with
  | some history => history
  | none => []

/-- `save_history` of `app.py` (lines 96-97): the file is rewritten in full
with a well-formed serialization of the given list. -/
def save_history (history : List HistoryEntry) : Option (List HistoryEntry) :=
  some history

/-- The append pattern used at every history write in `app.py` (lines
378-390, 527-540, 670-672): `history = load_history(); history.append(entry);
save_history(history)`. -/
def append_history (stored : Option (List HistoryEntry)) (entry : HistoryEntry) :
    Option (List HistoryEntry) :=
  save_history (load_history stored ++ [entry])

/-- The Reset History action of the Admin panel (`app.py` line 622):
`save_history([])`. -/
def reset_history : Option (List HistoryEntry) :=
  save_history []

/-- Counterexample to C8: on malformed stored data (`none`) the reader does
not fail — it recovers with the empty list, the very value an empty ledger
yields, contradicting "fatal error, never a default such as an empty
sequence". -/
theorem load_history_recovers_from_malformed :
    load_history none = ([] : List HistoryEntry) ∧
    load_history none = load_history (save_history []) :=
  ⟨rfl, rfl⟩

/-- Claim C8 as amended: malformed stored ledger data is swallowed, not
fatal — `load_history` returns the stored entries when the data parses and
silently substitutes the empty list otherwise. -/
theorem load_history_total (stored : Option (List HistoryEntry)) :
    load_history stored = stored.getD [] := by
  cases stored <;> rfl

/-- Claim C9: appending an entry and reading back preserves order (the new
entry is last, the earlier entries are unchanged and in order), reading is
idempotent (the read is a pure function of the stored state), and reading
after a reset yields the empty sequence. -/
theorem history_ledger_laws (stored : Option (List HistoryEntry)) (e : HistoryEntry) :
    load_history (append_history stored e) = load_history stored ++ [e] ∧
    load_history stored = load_history stored ∧
    load_history reset_history = [] :=
  ⟨rfl, rfl, rfl⟩

end Calci
